import Mathlib

/-!
Shallow embedding of the paginated interactive menu subsystem of the
Trusty-cogs repository: `src/destiny/menus.py` (destiny `BaseMenu` and its
buttons) and `src/hockey/menu.py` (hockey `BaseMenu`, `GamesMenu` and their
buttons).  Pages are opaque values of a type `α`; select options are
identified by their `value` field (a natural number).  Effects on the chat
platform (message edits, ephemeral notices, deletions) are made explicit in
the return values of the operations.
-/

namespace TrustyMenus

/-- Failure modes of a page source: Python `IndexError`, and the hockey
domain error `NoSchedule` (the "no content" condition). -/
inductive PageErr where
  | indexError
  | noSchedule
deriving Repr, DecidableEq

/-- What one message edit renders: a formatted page, or the fixed
"No schedule could be found ..." error text produced by
`GamesMenu.format_error`. -/
inductive Render (α : Type) where
  | page (p : α)
  | errorNotFound
deriving Repr, DecidableEq

/-- One `edit_message` / `followup.edit` call issued to the menu message:
what it renders and whether `view=self` (the live control set) is attached. -/
structure EditMsg (α : Type) where
  render : Render α
  viewAttached : Bool
deriving Repr, DecidableEq

/-- The page-source interface the menus consume: `get_page`,
`get_max_pages`, the `pages`/`entries` list, and the optional
`select_options` attribute (`selectOptions = some opts` models presence of
the attribute; an option is identified by its `value`). -/
structure Source (α : Type) where
  getPage : Int → Except PageErr α
  maxPages : Option Nat
  pages : List α
  selectOptions : Option (List Nat)

/-- Modelled from the spec: `menus.ListPageSource` with `per_page = 1`, the
vendored library superclass of `BasePages`, `VaultPages`, `PlayerPages`,
..., whose code is not under src/.  Per the spec's PageSource contract,
`get_page(n)` returns the n-th entry and fails with `IndexError` outside
`[0, max_pages())`, and `get_max_pages()` reports the number of entries.
`select_options`, when the subclass builds it, holds one option per page
whose `value` is the page index (`BasePages.__init__`). -/
def listSource {α : Type} (pages : List α) (hasSelect : Bool) : Source α where
  getPage := fun n =>
    if h : 0 ≤ n ∧ n.toNat < pages.length then .ok (pages.get ⟨n.toNat, h.2⟩)
    else .error .indexError
  maxPages := some pages.length
  pages := pages
  selectOptions := if hasSelect then some (List.range pages.length) else none

/-- The option window computed by destiny `BaseMenu._get_select_menu`
(src/destiny/menus.py lines 243-262) for option list `opts` and current
page `c`.  The Python slices use `drop`/`take`; every slice bound is
nonnegative in its branch. -/
def destinySelectWindow (opts : List Nat) (c : Int) : List Nat :=
  if 25 < opts.length then
    if 12 < c ∧ c < (opts.length : Int) - 25 then
      (opts.drop (c - 12).toNat).take 25
    else if (opts.length : Int) - 25 ≤ c then
      opts.drop (opts.length - 25)
    else
      opts.take 25
  else
    opts.take 25

/-- The option window used by hockey `BaseMenu.update_select_view`
(src/hockey/menu.py lines 616-625) and `GamesMenu.show_page` (lines
361-369): `select_options[:25]`, replaced by
`select_options[page_number - 12 : page_number + 13]` when
`page_number >= 12`. -/
def hockeySelectWindow (opts : List Nat) (n : Int) : List Nat :=
  if 12 ≤ n then (opts.drop (n - 12).toNat).take 25
  else opts.take 25

/-- State of a destiny `BaseMenu` (src/destiny/menus.py): the source, the
current page, the options of the attached select control (if any), the
captured author id, and the `disabled` flags of the navigation controls. -/
structure DestinyMenu (α : Type) where
  source : Source α
  currentPage : Int
  selectView : Option (List Nat)
  author : Option Nat
  firstDisabled : Bool
  lastDisabled : Bool
  backDisabled : Bool
  forwardDisabled : Bool
  selectDisabled : Bool

/-- destiny `BaseMenu.check_disabled_buttons` (lines 227-241): all
navigation controls are disabled when the source has exactly one entry and
enabled otherwise; the select flag is touched only when the source has
`select_options`. -/
def checkDisabledButtons {α : Type} (m : DestinyMenu α) : DestinyMenu α :=
  if m.source.pages.length = 1 then
    { m with firstDisabled := true, lastDisabled := true, backDisabled := true,
             forwardDisabled := true,
             selectDisabled :=
               if m.source.selectOptions.isSome then true else m.selectDisabled }
  else
    { m with firstDisabled := false, lastDisabled := false, backDisabled := false,
             forwardDisabled := false,
             selectDisabled :=
               if m.source.selectOptions.isSome then false else m.selectDisabled }

/-- destiny `BaseMenu._get_select_menu`: returns the rebuilt select
control's options, computed from `self.current_page` as it is at call
time. -/
def destinyGetSelectMenu {α : Type} (m : DestinyMenu α) : Option (List Nat) :=
  match m.source.selectOptions with
  | none => none
  | some opts => some (destinySelectWindow opts m.currentPage)

/-- destiny `BaseMenu.__init__`: current page starts at `page_start`, a
select control is attached iff the source has `select_options`, buttons
start enabled, and no author is captured yet. -/
def destinyInit {α : Type} (src : Source α) (pageStart : Int) : DestinyMenu α :=
  let m : DestinyMenu α :=
    { source := src, currentPage := pageStart, selectView := none, author := none,
      firstDisabled := false, lastDisabled := false, backDisabled := false,
      forwardDisabled := false, selectDisabled := false }
  if src.selectOptions.isSome then { m with selectView := destinyGetSelectMenu m } else m

/-- destiny `BaseMenu.show_page` (lines 287-295): fetch the page (errors
propagate), rebuild the select only when the source has `select_options`
and `page_number >= 12` (from the still-old `current_page`), set
`current_page` to `self.source.pages.index(page)` (index of the first
occurrence), recompute the disabled flags (via `_get_kwargs_from_page`),
and issue one edit carrying the page and `view=self`. -/
def destinyShowPage {α : Type} [DecidableEq α] (m : DestinyMenu α) (n : Int) :
    Except PageErr (DestinyMenu α × EditMsg α) :=
  match m.source.getPage n with
  | .error e => .error e
  | .ok page =>
    let m1 := if m.source.selectOptions.isSome ∧ 12 ≤ n then
        { m with selectView := destinyGetSelectMenu m } else m
    let m2 := { m1 with currentPage := (m1.source.pages.indexOf page : Nat) }
    let m3 := checkDisabledButtons m2
    .ok (m3, { render := .page page, viewAttached := true })

/-- The page number that the checked navigation of the two `BaseMenu`s
resolves a request to: used directly when `get_max_pages()` is `None`,
else wrapped to 0 when `>= max_pages`, to `max_pages - 1` when negative,
and used unchanged when in range. -/
def checkedResolve (maxPages : Option Nat) (n : Int) : Int :=
  match maxPages with
  | none => n
  | some M => if (M : Int) ≤ n then 0 else if n < 0 then (M : Int) - 1 else n

/-- destiny `BaseMenu.show_checked_page` (lines 297-311): dispatch on
`get_max_pages()`, swallow `IndexError` (leaving the menu untouched, with
no edit); `NoSchedule` is not caught there and would propagate. -/
def destinyShowCheckedPage {α : Type} [DecidableEq α] (m : DestinyMenu α) (n : Int) :
    Except PageErr (DestinyMenu α × List (EditMsg α)) :=
  match destinyShowPage m (checkedResolve m.source.maxPages n) with
  | .ok (m1, e) => .ok (m1, [e])
  | .error .indexError => .ok (m, [])
  | .error .noSchedule => .error .noSchedule

/-- destiny `BaseMenu.interaction_check` (lines 313-320) with author id
`authorId`: `interaction.user.id not in (self.author.id,)` sends one
ephemeral notice and rejects; otherwise no notice and accept.  Returns
(verdict, number of ephemeral notices sent). -/
def destinyInteractionCheck (authorId : Nat) (userId : Nat) : Bool × Nat :=
  if userId ≠ authorId then (false, 1) else (true, 0)

/-- Modelled from the spec: the chat platform invokes `interaction_check`
first and runs the pressed control's callback only when the check returns
true (spec 4.3 step 1: reject a non-authorized caller, stay put, send an
ephemeral notice).  Returns `none` when no author was captured (destiny's
`self.author.id` would raise `AttributeError`), else the final state, the
edits issued, the ephemeral notices sent, and the verdict. -/
def destinyHandleInteraction {α : Type} (m : DestinyMenu α) (userId : Nat)
    (callback : DestinyMenu α → DestinyMenu α × List (EditMsg α)) :
    Option (DestinyMenu α × List (EditMsg α) × Nat × Bool) :=
  match m.author with
  | none => none
  | some authorId =>
    let check := destinyInteractionCheck authorId userId
    if check.1 then
      let r := callback m
      some (r.1, r.2, check.2, true)
    else
      some (m, [], check.2, false)

/-- State of a hockey `BaseMenu` (src/hockey/menu.py lines 560-681).  The
navigation buttons carry `disabled` flags (False at construction) that no
code path of this class ever writes. -/
structure HockeyMenu (α : Type) where
  source : Source α
  pageStart : Int
  currentPage : Int
  selectView : Option (List Nat)
  author : Option Nat
  firstDisabled : Bool
  lastDisabled : Bool
  backDisabled : Bool
  forwardDisabled : Bool

/-- hockey `BaseMenu.__init__`: current page starts at `page_start`, a
select holding `select_options[:25]` is attached iff the source has
`select_options`, buttons start enabled, no author captured. -/
def hockeyInit {α : Type} (src : Source α) (pageStart : Int) : HockeyMenu α :=
  { source := src, pageStart := pageStart, currentPage := pageStart,
    selectView := src.selectOptions.map (fun opts => opts.take 25),
    author := none, firstDisabled := false, lastDisabled := false,
    backDisabled := false, forwardDisabled := false }

/-- hockey `BaseMenu.update_select_view` (lines 616-625): detach the
current select (if attached), return early when the source has no
`select_options`, else attach a fresh select holding the window for
`page_number`. -/
def hockeyUpdateSelectView {α : Type} (m : HockeyMenu α) (n : Int) : HockeyMenu α :=
  let m1 := { m with selectView := none }
  match m.source.selectOptions with
  | none => m1
  | some opts => { m1 with selectView := some (hockeySelectWindow opts n) }

/-- hockey `BaseMenu.show_page` (lines 627-635): fetch the page (errors
propagate), set `current_page := page_number`, rebuild the select window
for `page_number`, and issue one edit carrying the page and `view=self`. -/
def hockeyShowPage {α : Type} (m : HockeyMenu α) (n : Int) :
    Except PageErr (HockeyMenu α × EditMsg α) :=
  match m.source.getPage n with
  | .error e => .error e
  | .ok page =>
    let m1 := { m with currentPage := n }
    let m2 := hockeyUpdateSelectView m1 n
    .ok (m2, { render := .page page, viewAttached := true })

/-- hockey `BaseMenu.show_checked_page` (lines 658-672): same dispatch on
`get_max_pages()` as the destiny menu, `IndexError` swallowed (no state
change, no edit), `NoSchedule` not caught. -/
def hockeyShowCheckedPage {α : Type} (m : HockeyMenu α) (n : Int) :
    Except PageErr (HockeyMenu α × List (EditMsg α)) :=
  match hockeyShowPage m (checkedResolve m.source.maxPages n) with
  | .ok (m1, e) => .ok (m1, [e])
  | .error .indexError => .ok (m, [])
  | .error .noSchedule => .error .noSchedule

/-- hockey `BaseMenu.interaction_check` (lines 674-681) and
`GamesMenu.interaction_check` (lines 428-435), whose bodies are identical:
the guard is `self.author and interaction.user.id != self.author.id`, so a
still-uncaptured (`None`, falsy) author admits every interaction with no
notice.  Returns (verdict, number of ephemeral notices sent). -/
def hockeyInteractionCheck (author : Option Nat) (userId : Nat) : Bool × Nat :=
  match author with
  | none => (true, 0)
  | some authorId => if userId ≠ authorId then (false, 1) else (true, 0)

/-- Modelled from the spec: platform dispatch for the hockey menus — the
check runs first and the pressed control's callback only on a true
verdict.  Generic in the session state `σ`; `author` is the state's
captured author id.  Returns the final state, the edits issued, the
ephemeral notices sent, and the verdict. -/
def hockeyHandleInteraction {σ ε : Type} (author : Option Nat) (m : σ) (userId : Nat)
    (callback : σ → σ × List ε) : σ × List ε × Nat × Bool :=
  let check := hockeyInteractionCheck author userId
  if check.1 then
    let r := callback m
    (r.1, r.2, check.2, true)
  else
    (m, [], check.2, false)

/-- State of a hockey `GamesMenu` (src/hockey/menu.py lines 281-435). -/
structure GamesMenu (α : Type) where
  source : Source α
  currentPage : Int
  selectView : Option (List Nat)
  author : Option Nat

/-- hockey `GamesMenu.show_page` (lines 340-375) on the checked navigation
path (`skip_next`/`skip_prev` False, `game_id` None): on `NoSchedule` from
`get_page`, edit the message to the `format_error()` text with `view=self`
and return with the state untouched; on success rebuild the select window
(when `select_options` exists with more than one option), set
`current_page := page_number`, and edit in the new page with `view=self`.
`IndexError` propagates. -/
def gamesShowPage {α : Type} (m : GamesMenu α) (n : Int) :
    Except PageErr (GamesMenu α × EditMsg α) :=
  match m.source.getPage n with
  | .error .noSchedule => .ok (m, { render := .errorNotFound, viewAttached := true })
  | .error .indexError => .error .indexError
  | .ok page =>
    let m1 :=
      match m.source.selectOptions with
      | some opts =>
        if 1 < opts.length then { m with selectView := some (hockeySelectWindow opts n) }
        else m
      | none => m
    .ok ({ m1 with currentPage := n }, { render := .page page, viewAttached := true })

/-- hockey `GamesMenu.show_checked_page` (lines 421-426): call `show_page`
directly — no `get_max_pages()` consultation, no clamping — and swallow
`IndexError` (`NoSchedule` never escapes `show_page`). -/
def gamesShowCheckedPage {α : Type} (m : GamesMenu α) (n : Int) :
    GamesMenu α × List (EditMsg α) :=
  match gamesShowPage m n with
  | .ok (m1, e) => (m1, [e])
  | .error _ => (m, [])

/-- Observable side effects of a stop button press. -/
structure StopEffects where
  viewStopped : Bool
  editedViewAway : Bool
  messageDeleted : Bool
deriving Repr, DecidableEq

/-- destiny `StopButton.callback` (src/destiny/menus.py lines 103-108):
stop the view; if the message is ephemeral, edit the view away and
return; otherwise delete the message. -/
def destinyStopCallback (ephemeral : Bool) : StopEffects :=
  if ephemeral then
    { viewStopped := true, editedViewAway := true, messageDeleted := false }
  else
    { viewStopped := true, editedViewAway := false, messageDeleted := true }

/-- hockey `StopButton.callback` (src/hockey/menu.py lines 34-36): stop
the view and delete the message, unconditionally. -/
def hockeyStopCallback (_ephemeral : Bool) : StopEffects :=
  { viewStopped := true, editedViewAway := false, messageDeleted := true }

/-! ### Helper lemmas -/

theorem listSource_getPage_ok {α : Type} (pages : List α) (hasSel : Bool) (k : Nat)
    (hk : k < pages.length) :
    (listSource pages hasSel).getPage (k : Int) = .ok (pages.get ⟨k, hk⟩) := by
  simp only [listSource]
  rw [dif_pos ⟨Int.natCast_nonneg k, by simpa using hk⟩]
  simp

theorem listSource_getPage_err {α : Type} (pages : List α) (hasSel : Bool) (n : Int)
    (h : n < 0 ∨ (pages.length : Int) ≤ n) :
    (listSource pages hasSel).getPage n = .error .indexError := by
  simp only [listSource]
  rw [dif_neg]
  rintro ⟨h0, hlt⟩
  omega

theorem destinyInit_source {α : Type} (src : Source α) (s : Int) :
    (destinyInit src s).source = src := by
  simp only [destinyInit]
  split <;> rfl

theorem destinyInit_currentPage {α : Type} (src : Source α) (s : Int) :
    (destinyInit src s).currentPage = s := by
  simp only [destinyInit]
  split <;> rfl

theorem checkDisabledButtons_currentPage {α : Type} (m : DestinyMenu α) :
    (checkDisabledButtons m).currentPage = m.currentPage := by
  simp only [checkDisabledButtons]
  split <;> rfl

theorem checkDisabledButtons_selectView {α : Type} (m : DestinyMenu α) :
    (checkDisabledButtons m).selectView = m.selectView := by
  simp only [checkDisabledButtons]
  split <;> rfl

theorem indexOf_get_zero {α : Type} [DecidableEq α] (pages : List α)
    (h : 0 < pages.length) : pages.indexOf (pages.get ⟨0, h⟩) = 0 := by
  cases pages with
  | nil => simp at h
  | cons x xs => simp

theorem indexOf_le_of_get_eq {α : Type} [DecidableEq α] :
    ∀ (l : List α) (j : Nat) (hj : j < l.length) (a : α),
      l.get ⟨j, hj⟩ = a → l.indexOf a ≤ j
  | x :: _, 0, _, a, h => by
    simp only [List.get] at h
    simp [List.indexOf_cons_eq _ h]
  | x :: xs, j + 1, hj, a, h => by
    by_cases hx : x = a
    · simp [List.indexOf_cons_eq _ hx]
    · rw [List.indexOf_cons_ne _ hx]
      have hrec := indexOf_le_of_get_eq xs j (by simpa using hj) a (by simpa using h)
      omega

/-- Unwrapping of destiny `show_page` over a list source at an in-range
page number: the fetched page is the k-th entry and the stored
`current_page` is the index of its first occurrence. -/
theorem destinyShowPage_listSource {α : Type} [DecidableEq α] (pages : List α)
    (hasSel : Bool) (m : DestinyMenu α) (hsrc : m.source = listSource pages hasSel)
    (k : Nat) (hk : k < pages.length) :
    ∃ m1, destinyShowPage m (k : Int) =
        .ok (m1, { render := .page (pages.get ⟨k, hk⟩), viewAttached := true }) ∧
      m1.currentPage = (pages.indexOf (pages.get ⟨k, hk⟩) : Int) := by
  have hget : m.source.getPage (k : Int) = .ok (pages.get ⟨k, hk⟩) := by
    rw [hsrc]
    exact listSource_getPage_ok pages hasSel k hk
  simp only [destinyShowPage]
  rw [hget]
  refine ⟨_, rfl, ?_⟩
  rw [checkDisabledButtons_currentPage]
  split <;> simp [hsrc, listSource]

/-- Unwrapping of hockey `show_page` over a list source at an in-range
page number: the stored `current_page` is the page number itself. -/
theorem hockeyShowPage_listSource {α : Type} (pages : List α) (hasSel : Bool)
    (m : HockeyMenu α) (hsrc : m.source = listSource pages hasSel)
    (k : Nat) (hk : k < pages.length) :
    ∃ m1, hockeyShowPage m (k : Int) =
        .ok (m1, { render := .page (pages.get ⟨k, hk⟩), viewAttached := true }) ∧
      m1.currentPage = (k : Int) := by
  have hget : m.source.getPage (k : Int) = .ok (pages.get ⟨k, hk⟩) := by
    rw [hsrc]
    exact listSource_getPage_ok pages hasSel k hk
  simp only [hockeyShowPage]
  rw [hget]
  refine ⟨_, rfl, ?_⟩
  simp only [hockeyUpdateSelectView]
  cases h : m.source.selectOptions <;> simp [h]

/-! ### Sample data used by the witnesses -/

def sampleDestinyMenu : DestinyMenu Nat :=
  { destinyInit (listSource [0] false) 0 with author := some 1 }

def sampleHockeyMenu : HockeyMenu Nat :=
  { hockeyInit (listSource ([0] : List Nat) false) 0 with author := some 1 }

def sampleGamesMenu : GamesMenu Nat :=
  { source := listSource [0] false, currentPage := 0, selectView := none,
    author := some 1 }

def noScheduleSource : Source Nat :=
  { getPage := fun _ => .error .noSchedule, maxPages := none, pages := [],
    selectOptions := none }

def sampleNoScheduleMenu : GamesMenu Nat :=
  { source := noScheduleSource, currentPage := 3, selectView := some [0],
    author := some 1 }

def unknownSource : Source Nat :=
  { getPage := fun n => if n = 3 then .ok 42 else .error .indexError,
    maxPages := none, pages := [42], selectOptions := none }

def sampleUnknownDestiny : DestinyMenu Nat := destinyInit unknownSource 0

def sampleUnknownHockey : HockeyMenu Nat := hockeyInit unknownSource 0

/-! ### Claim theorems -/

/-- Claim C3 (confirmed): an interaction from a user other than the
captured author is rejected by the destiny check, the hockey `BaseMenu`
check and the `GamesMenu` check with exactly one ephemeral notice, and
dispatch leaves the session state (current page, controls) untouched and
issues no edit. -/
theorem C3_unauthorized_noop {α : Type} (authorId userId : Nat) (hne : userId ≠ authorId)
    (m : DestinyMenu α) (hauthor : m.author = some authorId)
    (callback : DestinyMenu α → DestinyMenu α × List (EditMsg α))
    (hm : HockeyMenu α) (hcb : HockeyMenu α → HockeyMenu α × List (EditMsg α))
    (gm : GamesMenu α) (gcb : GamesMenu α → GamesMenu α × List (EditMsg α)) :
    destinyInteractionCheck authorId userId = (false, 1) ∧
    destinyHandleInteraction m userId callback = some (m, [], 1, false) ∧
    hockeyInteractionCheck (some authorId) userId = (false, 1) ∧
    hockeyHandleInteraction (some authorId) hm userId hcb = (hm, [], 1, false) ∧
    hockeyHandleInteraction (some authorId) gm userId gcb = (gm, [], 1, false) := by
  have hch : destinyInteractionCheck authorId userId = (false, 1) := by
    simp [destinyInteractionCheck, hne]
  have hch2 : hockeyInteractionCheck (some authorId) userId = (false, 1) := by
    simp [hockeyInteractionCheck, hne]
  refine ⟨hch, ?_, hch2, ?_, ?_⟩
  · simp [destinyHandleInteraction, hauthor, hch]
  · simp [hockeyHandleInteraction, hch2]
  · simp [hockeyHandleInteraction, hch2]

/-- Claim C3 witness: author id 1, interacting user id 2, on concrete
menus with a callback that would leave the state unchanged. -/
theorem C3_unauthorized_noop_witness :
    destinyInteractionCheck 1 2 = (false, 1) ∧
    destinyHandleInteraction sampleDestinyMenu 2 (fun s => (s, [])) =
      some (sampleDestinyMenu, [], 1, false) ∧
    hockeyInteractionCheck (some 1) 2 = (false, 1) ∧
    hockeyHandleInteraction (some 1) sampleHockeyMenu 2
        (fun s => (s, ([] : List (EditMsg Nat)))) =
      (sampleHockeyMenu, [], 1, false) ∧
    hockeyHandleInteraction (some 1) sampleGamesMenu 2
        (fun s => (s, ([] : List (EditMsg Nat)))) =
      (sampleGamesMenu, [], 1, false) :=
  C3_unauthorized_noop 1 2 (by decide) sampleDestinyMenu rfl (fun s => (s, []))
    sampleHockeyMenu (fun s => (s, [])) sampleGamesMenu (fun s => (s, []))

/-- Claim C4 (confirmed): when the source raises `NoSchedule` during a
`GamesMenu` page transition, the menu issues exactly one edit rendering
the fixed "not found" error text with the live view (full control set)
attached, and the state — `current_page` and the select — is unchanged. -/
theorem C4_noschedule_keeps_controls {α : Type} (m : GamesMenu α) (n : Int)
    (h : m.source.getPage n = .error .noSchedule) :
    gamesShowPage m n = .ok (m, { render := .errorNotFound, viewAttached := true }) ∧
    gamesShowCheckedPage m n = (m, [{ render := .errorNotFound, viewAttached := true }]) := by
  constructor
  · simp only [gamesShowPage, h]
  · simp only [gamesShowCheckedPage, gamesShowPage, h]

/-- Claim C4 witness: a concrete `GamesMenu` whose source raises
`NoSchedule` on every fetch, asked for page 7. -/
theorem C4_noschedule_keeps_controls_witness :
    gamesShowPage sampleNoScheduleMenu 7 =
      .ok (sampleNoScheduleMenu, { render := .errorNotFound, viewAttached := true }) ∧
    gamesShowCheckedPage sampleNoScheduleMenu 7 =
      (sampleNoScheduleMenu, [{ render := .errorNotFound, viewAttached := true }]) :=
  C4_noschedule_keeps_controls sampleNoScheduleMenu 7 rfl

/-- Claim C7 (amended): the destiny stop button stops the view, deletes
the message exactly when it is not ephemeral, and edits the controls away
(without deleting) exactly when it is ephemeral; the hockey stop button
stops the view and deletes the message unconditionally — even when the
message is ephemeral — and never merely edits the controls away. -/
theorem C7_stop_amended (ephemeral : Bool) :
    (destinyStopCallback ephemeral).viewStopped = true ∧
    (destinyStopCallback ephemeral).messageDeleted = !ephemeral ∧
    (destinyStopCallback ephemeral).editedViewAway = ephemeral ∧
    (hockeyStopCallback ephemeral).viewStopped = true ∧
    (hockeyStopCallback ephemeral).messageDeleted = true ∧
    (hockeyStopCallback ephemeral).editedViewAway = false := by
  cases ephemeral <;> exact ⟨rfl, rfl, rfl, rfl, rfl, rfl⟩

/-- Claim C7 counterexample: pressing the hockey stop button on an
ephemeral message still deletes the message, where the claim requires the
message not to be deleted. -/
theorem C7_stop_counterexample :
    (hockeyStopCallback true).messageDeleted = true ∧
    ¬ (hockeyStopCallback true).messageDeleted = false := by
  decide

/-- Claim C10 (confirmed): with a still-uncaptured author (`None`), the
hockey interaction gate admits every interaction from every user — the
check returns true, sends no ephemeral notice, and the pressed control's
callback runs. -/
theorem C10_uncaptured_author_admits {σ ε : Type} (userId : Nat) (m : σ)
    (callback : σ → σ × List ε) :
    hockeyInteractionCheck none userId = (true, 0) ∧
    hockeyHandleInteraction none m userId callback =
      ((callback m).1, (callback m).2, 0, true) :=
  ⟨rfl, rfl⟩

/-- Claim C2 (amended): destiny's `_get_select_menu` implements the
spec's window algorithm — all options when `L ≤ 25`, `[c-12, c+13)` when
`12 < c < L - 25`, the last 25 when `c ≥ L - 25`, otherwise the first
25 — and for `L > 25` its window always holds exactly 25 options.  The
hockey variants (`BaseMenu.update_select_view`, `GamesMenu.show_page`)
instead show the first 25 when `c < 12` and the raw slice `[c-12, c+13)`
whenever `c ≥ 12`: that slice's length is `min 25 (L - (c-12))`, which
drops below 25 near the end of the list (no tail window). -/
theorem C2_select_window_amended (opts : List Nat) (c : Int) :
    (opts.length ≤ 25 → destinySelectWindow opts c = opts) ∧
    (25 < opts.length →
      (12 < c ∧ c < (opts.length : Int) - 25 →
        destinySelectWindow opts c = (opts.drop (c - 12).toNat).take 25) ∧
      ((opts.length : Int) - 25 ≤ c →
        destinySelectWindow opts c = opts.drop (opts.length - 25)) ∧
      (c ≤ 12 ∧ c < (opts.length : Int) - 25 →
        destinySelectWindow opts c = opts.take 25) ∧
      (destinySelectWindow opts c).length = 25) ∧
    (c < 12 → hockeySelectWindow opts c = opts.take 25) ∧
    (12 ≤ c →
      hockeySelectWindow opts c = (opts.drop (c - 12).toNat).take 25 ∧
      (hockeySelectWindow opts c).length = min 25 (opts.length - (c - 12).toNat)) := by
  refine ⟨?_, ?_, ?_, ?_⟩
  · intro h
    rw [destinySelectWindow, if_neg (by omega)]
    exact List.take_of_length_le h
  · intro h25
    refine ⟨?_, ?_, ?_, ?_⟩
    · intro hc
      rw [destinySelectWindow, if_pos h25, if_pos hc]
    · intro hc
      rw [destinySelectWindow, if_pos h25, if_neg (by omega), if_pos hc]
    · intro hc
      rw [destinySelectWindow, if_pos h25, if_neg (by omega), if_neg (by omega)]
    · rw [destinySelectWindow, if_pos h25]
      split
      · rename_i hc
        rw [List.length_take, List.length_drop]
        omega
      · split
        · rw [List.length_drop]
          omega
        · rw [List.length_take]
          omega
  · intro hc
    rw [hockeySelectWindow, if_neg (by omega)]
  · intro hc
    rw [hockeySelectWindow, if_pos hc]
    exact ⟨rfl, by rw [List.length_take, List.length_drop]⟩

/-- Claim C2 witness: at 100 options and current page 50 both variants
show `options[38:63]`, and destiny's window has exactly 25 entries. -/
theorem C2_select_window_witness :
    destinySelectWindow (List.range 100) 50 =
      ((List.range 100).drop ((50 : Int) - 12).toNat).take 25 ∧
    (destinySelectWindow (List.range 100) 50).length = 25 ∧
    hockeySelectWindow (List.range 100) 50 =
      ((List.range 100).drop ((50 : Int) - 12).toNat).take 25 := by
  have h := C2_select_window_amended (List.range 100) 50
  have h25 : 25 < (List.range 100).length := by simp
  exact ⟨(h.2.1 h25).1 (by constructor <;> simp), (h.2.1 h25).2.2.2,
    (h.2.2.2 (by omega)).1⟩

/-- Claim C2 counterexample: the hockey select window over 30 options at
current page 29 holds only 13 options — not 25, and not the last 25
(`options[5:30]`) that the claim requires for `c ≥ L - 25`. -/
theorem C2_select_window_counterexample :
    (hockeySelectWindow (List.range 30) 29).length = 13 ∧
    ¬ (hockeySelectWindow (List.range 30) 29).length = 25 ∧
    ¬ hockeySelectWindow (List.range 30) 29 = (List.range 30).drop 5 := by
  decide

/-- Claim C5 (amended): after any successful destiny page transition the
navigation controls are all disabled when the source has exactly one
entry and all enabled otherwise (the select likewise whenever the source
has `select_options`); the hockey `BaseMenu` never writes the `disabled`
flags — after any successful transition they keep their previous value,
which is `false` from construction — so a single-entry hockey source
leaves every navigation control enabled. -/
theorem C5_single_item_disable_amended {α : Type} [DecidableEq α]
    (m : DestinyMenu α) (hm : HockeyMenu α) (src : Source α) (start : Int) (n : Int) :
    ((destinyShowPage m n).toOption.map
        (fun r => (r.1.firstDisabled, r.1.lastDisabled, r.1.backDisabled,
                   r.1.forwardDisabled))) =
      ((m.source.getPage n).toOption.map
        (fun _ => (m.source.pages.length == 1, m.source.pages.length == 1,
                   m.source.pages.length == 1, m.source.pages.length == 1))) ∧
    (m.source.selectOptions.isSome = true →
      ((destinyShowPage m n).toOption.map (fun r => r.1.selectDisabled)) =
        ((m.source.getPage n).toOption.map (fun _ => m.source.pages.length == 1))) ∧
    ((hockeyShowPage hm n).toOption.map
        (fun r => (r.1.firstDisabled, r.1.lastDisabled, r.1.backDisabled,
                   r.1.forwardDisabled))) =
      ((hm.source.getPage n).toOption.map
        (fun _ => (hm.firstDisabled, hm.lastDisabled, hm.backDisabled,
                   hm.forwardDisabled))) ∧
    (hockeyInit src start).firstDisabled = false ∧
    (hockeyInit src start).lastDisabled = false ∧
    (hockeyInit src start).backDisabled = false ∧
    (hockeyInit src start).forwardDisabled = false := by
  refine ⟨?_, ?_, ?_, rfl, rfl, rfl, rfl⟩
  · cases hg : m.source.getPage n with
    | error e => simp [destinyShowPage, hg, Except.toOption]
    | ok page =>
      by_cases h1 : m.source.pages.length = 1 <;>
        · simp only [destinyShowPage, hg, Except.toOption, Option.map_some]
          split <;> simp [checkDisabledButtons, h1]
  · intro hsel
    cases hg : m.source.getPage n with
    | error e => simp [destinyShowPage, hg, Except.toOption]
    | ok page =>
      by_cases h1 : m.source.pages.length = 1 <;>
        · simp only [destinyShowPage, hg, Except.toOption, Option.map_some]
          split <;> simp [checkDisabledButtons, h1, hsel]
  · cases hg : hm.source.getPage n with
    | error e => simp [hockeyShowPage, hg, Except.toOption]
    | ok page =>
      simp only [hockeyShowPage, hg, Except.toOption, Option.map_some,
        hockeyUpdateSelectView]
      cases hso : hm.source.selectOptions <;> simp [hso]

/-- Claim C5 witness: destiny over the single-entry list source [7] (with
select capability): after `show_page(0)` every navigation flag, and the
select flag, is disabled. -/
theorem C5_single_item_disable_witness :
    ((destinyShowPage (destinyInit (listSource ([7] : List Nat) true) 0) 0).toOption.map
        (fun r => (r.1.firstDisabled, r.1.lastDisabled, r.1.backDisabled,
                   r.1.forwardDisabled))) = some (true, true, true, true) ∧
    ((destinyShowPage (destinyInit (listSource ([7] : List Nat) true) 0) 0).toOption.map
        (fun r => r.1.selectDisabled)) = some true := by
  have h := C5_single_item_disable_amended
      (destinyInit (listSource ([7] : List Nat) true) 0)
      (hockeyInit (listSource ([7] : List Nat) true) 0)
      (listSource ([7] : List Nat) true) 0 0
  exact ⟨h.1.trans (by decide), (h.2.1 (by decide)).trans (by decide)⟩

/-- Claim C5 counterexample: the hockey `BaseMenu` over the single-entry
source [7]: after the transition `show_page(0)` the forward control is
still enabled (`disabled = false`), where the claim requires every
navigation control disabled. -/
theorem C5_single_item_disable_counterexample :
    ((hockeyShowPage (hockeyInit (listSource ([7] : List Nat) true) 0) 0).toOption.map
        (fun r => (r.1.firstDisabled, r.1.lastDisabled, r.1.backDisabled,
                   r.1.forwardDisabled))) = some (false, false, false, false) ∧
    ¬ ((hockeyShowPage (hockeyInit (listSource ([7] : List Nat) true) 0) 0).toOption.map
        (fun r => r.1.forwardDisabled)) = some true := by
  decide

/-- Claim C8 (amended): the hockey `BaseMenu` rebuilds the select window
from the newly shown page on every successful transition, in both
directions, and `GamesMenu.show_page` does the same whenever its source
exposes more than one select option; the destiny menu rebuilds only when
the target page number is at least 12 — a transition back to a page below
12 leaves the previously attached window in place — and even when it does
rebuild, the window is computed from the still-old `current_page`, not
from the target page. -/
theorem C8_select_recompute_amended {α : Type} [DecidableEq α]
    (hm : HockeyMenu α) (m : DestinyMenu α) (gm : GamesMenu α) (n : Int) :
    (∀ opts, hm.source.selectOptions = some opts →
      ((hockeyShowPage hm n).toOption.map (fun r => r.1.selectView)) =
        ((hm.source.getPage n).toOption.map
          (fun _ => some (hockeySelectWindow opts n)))) ∧
    (n < 12 →
      ((destinyShowPage m n).toOption.map (fun r => r.1.selectView)) =
        ((m.source.getPage n).toOption.map (fun _ => m.selectView))) ∧
    (∀ opts, 12 ≤ n → m.source.selectOptions = some opts →
      ((destinyShowPage m n).toOption.map (fun r => r.1.selectView)) =
        ((m.source.getPage n).toOption.map
          (fun _ => some (destinySelectWindow opts m.currentPage)))) ∧
    (∀ opts p, gm.source.selectOptions = some opts → 1 < opts.length →
      gm.source.getPage n = .ok p →
      ((gamesShowPage gm n).toOption.map (fun r => r.1.selectView)) =
        some (some (hockeySelectWindow opts n))) := by
  refine ⟨?_, ?_, ?_, ?_⟩
  · intro opts hopts
    cases hg : hm.source.getPage n with
    | error e => simp [hockeyShowPage, hg, Except.toOption]
    | ok page =>
      simp [hockeyShowPage, hg, Except.toOption, hockeyUpdateSelectView, hopts]
  · intro h12
    cases hg : m.source.getPage n with
    | error e => simp [destinyShowPage, hg, Except.toOption]
    | ok page =>
      simp only [destinyShowPage, hg, Except.toOption, Option.map_some]
      rw [if_neg (by omega)]
      simp [checkDisabledButtons_selectView]
  · intro opts h12 hopts
    cases hg : m.source.getPage n with
    | error e => simp [destinyShowPage, hg, Except.toOption]
    | ok page =>
      simp only [destinyShowPage, hg, Except.toOption, Option.map_some]
      rw [if_pos ⟨by simp [hopts], h12⟩]
      simp [checkDisabledButtons_selectView, destinyGetSelectMenu, hopts]
  · intro opts p hopts hlen hok
    simp [gamesShowPage, hok, hopts, hlen, Except.toOption]

/-- A `GamesMenu` over the 30-page list source with select capability,
sitting on page 20. -/
def sampleGamesSelectMenu : GamesMenu Nat :=
  { source := listSource (List.range 30) true, currentPage := 20,
    selectView := some ((List.range 30).take 25), author := none }

/-- Claim C8 witness: hockey over a 30-page select source moving from
page 20 to page 5 (crossing back below index 12) recomputes the window
for page 5, and the games menu does the same; destiny moving to page 13
rebuilds (from its old current page). -/
theorem C8_select_recompute_witness :
    ((hockeyShowPage
        { hockeyInit (listSource (List.range 30) true) 0 with currentPage := 20 }
        5).toOption.map (fun r => r.1.selectView)) =
      some (some (hockeySelectWindow (List.range 30) 5)) ∧
    ((destinyShowPage (destinyInit (listSource (List.range 30) true) 0)
        13).toOption.map (fun r => r.1.selectView)) =
      some (some (destinySelectWindow (List.range 30) 0)) ∧
    ((gamesShowPage sampleGamesSelectMenu 5).toOption.map (fun r => r.1.selectView)) =
      some (some (hockeySelectWindow (List.range 30) 5)) := by
  have h1 := (C8_select_recompute_amended
      { hockeyInit (listSource (List.range 30) true) 0 with currentPage := 20 }
      (destinyInit (listSource (List.range 30) true) 0) sampleGamesSelectMenu 5).1
      (List.range 30) rfl
  have h2 := (C8_select_recompute_amended
      { hockeyInit (listSource (List.range 30) true) 0 with currentPage := 20 }
      (destinyInit (listSource (List.range 30) true) 0) sampleGamesSelectMenu 13).2.2.1
      (List.range 30) (by omega) rfl
  have h3 := (C8_select_recompute_amended
      { hockeyInit (listSource (List.range 30) true) 0 with currentPage := 20 }
      (destinyInit (listSource (List.range 30) true) 0) sampleGamesSelectMenu 5).2.2.2
      (List.range 30) 5 rfl (by decide) rfl
  refine ⟨h1.trans (by decide), ?_, h3⟩
  refine h2.trans ?_
  rw [destinyInit_currentPage]
  decide

/-- Claim C8 counterexample: destiny over 40 pages, sitting on page 30
(window `options[15:40]`), transitions to page 5: the attached window is
still `options[15:40]`, not the window computed from the new current page
5 (`options[0:25]`). -/
theorem C8_select_recompute_counterexample :
    ((destinyShowPage (destinyInit (listSource (List.range 40) true) 30) 5).toOption.map
        (fun r => r.1.selectView)) = some (some ((List.range 40).drop 15)) ∧
    ¬ ((destinyShowPage (destinyInit (listSource (List.range 40) true) 30) 5).toOption.map
        (fun r => r.1.selectView)) =
      some (some (destinySelectWindow (List.range 40) 5)) := by
  decide

/-- Claim C6 (confirmed): when `get_max_pages()` is `None` the checked
navigation of both `BaseMenu`s attempts `get_page(n)` directly with no
clamping (the shown page is the one the source returns for the raw `n`),
and whenever the resolved `get_page` call raises `IndexError` the error
is swallowed: the session state is exactly the one before the call and no
edit is issued. -/
theorem C6_unknown_noclamp_indexerror {α : Type} [DecidableEq α]
    (m : DestinyMenu α) (hm : HockeyMenu α) (n : Int) :
    (∀ p, m.source.maxPages = none → m.source.getPage n = .ok p →
      ((destinyShowCheckedPage m n).toOption.map
          (fun r => (r.1.currentPage, r.2.map (fun e => e.render)))) =
        some ((m.source.pages.indexOf p : Int), [Render.page p])) ∧
    (m.source.getPage (checkedResolve m.source.maxPages n) = .error .indexError →
      destinyShowCheckedPage m n = .ok (m, [])) ∧
    (∀ p, hm.source.maxPages = none → hm.source.getPage n = .ok p →
      ((hockeyShowCheckedPage hm n).toOption.map
          (fun r => (r.1.currentPage, r.2.map (fun e => e.render)))) =
        some (n, [Render.page p])) ∧
    (hm.source.getPage (checkedResolve hm.source.maxPages n) = .error .indexError →
      hockeyShowCheckedPage hm n = .ok (hm, [])) := by
  refine ⟨?_, ?_, ?_, ?_⟩
  · intro p hmax hok
    by_cases hcond : m.source.selectOptions.isSome = true ∧ 12 ≤ n <;>
      simp [destinyShowCheckedPage, checkedResolve, hmax, destinyShowPage, hok,
        Except.toOption, checkDisabledButtons_currentPage, hcond]
  · intro herr
    simp only [destinyShowCheckedPage, destinyShowPage, herr]
  · intro p hmax hok
    cases hso : hm.source.selectOptions <;>
      simp [hockeyShowCheckedPage, checkedResolve, hmax, hockeyShowPage, hok,
        Except.toOption, hockeyUpdateSelectView, hso]
  · intro herr
    simp only [hockeyShowCheckedPage, hockeyShowPage, herr]

/-- Claim C6 witness: a source with unknown max pages whose `get_page`
succeeds only at 3: the checked path shows page 3 unclamped, and a
request for page 5 hits `IndexError` and leaves both menus untouched with
no edit. -/
theorem C6_unknown_noclamp_indexerror_witness :
    ((destinyShowCheckedPage sampleUnknownDestiny 3).toOption.map
        (fun r => (r.1.currentPage, r.2.map (fun e => e.render)))) =
      some (0, [Render.page 42]) ∧
    destinyShowCheckedPage sampleUnknownDestiny 5 = .ok (sampleUnknownDestiny, []) ∧
    ((hockeyShowCheckedPage sampleUnknownHockey 3).toOption.map
        (fun r => (r.1.currentPage, r.2.map (fun e => e.render)))) =
      some (3, [Render.page 42]) ∧
    hockeyShowCheckedPage sampleUnknownHockey 5 = .ok (sampleUnknownHockey, []) := by
  have h3 := C6_unknown_noclamp_indexerror sampleUnknownDestiny sampleUnknownHockey 3
  have h5 := C6_unknown_noclamp_indexerror sampleUnknownDestiny sampleUnknownHockey 5
  exact ⟨(h3.1 42 rfl rfl).trans (by decide), h5.2.1 rfl,
    (h3.2.2.1 42 rfl rfl).trans (by decide), h5.2.2.2 rfl⟩

/-- Checked navigation of the destiny menu over a list source lands on
the index the first occurrence of the resolved page. -/
theorem destinyShowCheckedPage_wrap {α : Type} [DecidableEq α] (pages : List α)
    (hasSel : Bool) (start : Int) (n : Int) (k : Nat) (hk : k < pages.length)
    (hres : checkedResolve (some pages.length) n = (k : Int)) :
    ((destinyShowCheckedPage (destinyInit (listSource pages hasSel) start) n).toOption.map
        (fun r => r.1.currentPage)) =
      some ((pages.indexOf (pages.get ⟨k, hk⟩) : Nat) : Int) := by
  obtain ⟨m1, hshow, hcp⟩ :=
    destinyShowPage_listSource pages hasSel (destinyInit (listSource pages hasSel) start)
      (destinyInit_source _ _) k hk
  have hmax : (destinyInit (listSource pages hasSel) start).source.maxPages =
      some pages.length := by
    rw [destinyInit_source]
    rfl
  simp only [destinyShowCheckedPage, hmax, hres, hshow, Except.toOption,
    Option.map_some', hcp]

/-- Checked navigation of the hockey menu over a list source lands on
exactly the resolved index. -/
theorem hockeyShowCheckedPage_wrap {α : Type} (pages : List α)
    (hasSel : Bool) (start : Int) (n : Int) (k : Nat) (hk : k < pages.length)
    (hres : checkedResolve (some pages.length) n = (k : Int)) :
    ((hockeyShowCheckedPage (hockeyInit (listSource pages hasSel) start) n).toOption.map
        (fun r => r.1.currentPage)) = some ((k : Nat) : Int) := by
  obtain ⟨m1, hshow, hcp⟩ :=
    hockeyShowPage_listSource pages hasSel (hockeyInit (listSource pages hasSel) start)
      rfl k hk
  have hmax : (hockeyInit (listSource pages hasSel) start).source.maxPages =
      some pages.length := rfl
  simp only [hockeyShowCheckedPage, hmax, hres, hshow, Except.toOption,
    Option.map_some', hcp]

/-- Claim C1 (amended): for destiny and hockey `BaseMenu` sessions over a
list source with known `max_pages() = M > 0`, requesting page `M` through
`show_checked_page` yields `current_page = 0` (for destiny even with
duplicate pages, index 0 being always its own first occurrence), and
requesting page `-1` yields `current_page = M - 1` — for the destiny menu
the latter provided the page list has no duplicate entries, because its
`show_page` stores `pages.index(page)`, the index of the fetched page's
first occurrence.  The `GamesMenu` checked path performs no such wrap at
all: whatever `max_pages` reports, it forwards the raw page number to its
source — a successful fetch lands on the raw number itself, and an
`IndexError` is swallowed with the state unchanged and no edit. -/
theorem C1_wrap_amended {α : Type} [DecidableEq α] (pages : List α) (hasSel : Bool)
    (start : Int) (hM : 0 < pages.length) (gm : GamesMenu α) (n : Int) :
    ((destinyShowCheckedPage (destinyInit (listSource pages hasSel) start)
        (pages.length : Int)).toOption.map (fun r => r.1.currentPage)) = some 0 ∧
    (pages.Nodup →
      ((destinyShowCheckedPage (destinyInit (listSource pages hasSel) start)
          (-1)).toOption.map (fun r => r.1.currentPage)) =
        some ((pages.length : Int) - 1)) ∧
    ((hockeyShowCheckedPage (hockeyInit (listSource pages hasSel) start)
        (pages.length : Int)).toOption.map (fun r => r.1.currentPage)) = some 0 ∧
    ((hockeyShowCheckedPage (hockeyInit (listSource pages hasSel) start)
        (-1)).toOption.map (fun r => r.1.currentPage)) =
      some ((pages.length : Int) - 1) ∧
    (∀ p, gm.source.getPage n = .ok p →
      (gamesShowCheckedPage gm n).1.currentPage = n) ∧
    (gm.source.getPage n = .error .indexError →
      gamesShowCheckedPage gm n = (gm, [])) := by
  have hkM : pages.length - 1 < pages.length := by omega
  have hresM : checkedResolve (some pages.length) (pages.length : Int) =
      ((0 : Nat) : Int) := by
    simp [checkedResolve]
  have hresNeg : checkedResolve (some pages.length) (-1) =
      ((pages.length - 1 : Nat) : Int) := by
    simp only [checkedResolve]
    rw [if_neg (by omega), if_pos (by omega)]
    omega
  refine ⟨?_, ?_, ?_, ?_, ?_, ?_⟩
  · have h := destinyShowCheckedPage_wrap pages hasSel start _ 0 hM hresM
    rw [h, indexOf_get_zero pages hM]
    rfl
  · intro hnd
    have h := destinyShowCheckedPage_wrap pages hasSel start _ _ hkM hresNeg
    have hidx : pages.indexOf (pages.get ⟨pages.length - 1, hkM⟩) = pages.length - 1 := by
      simpa using List.indexOf_getElem hnd (pages.length - 1) hkM
    rw [h, hidx]
    congr 1
    omega
  · have h := hockeyShowCheckedPage_wrap pages hasSel start _ 0 hM hresM
    rw [h]
    rfl
  · have h := hockeyShowCheckedPage_wrap pages hasSel start _ _ hkM hresNeg
    rw [h]
    congr 1
    omega
  · intro p hok
    simp only [gamesShowCheckedPage, gamesShowPage, hok]
  · intro herr
    simp only [gamesShowCheckedPage, gamesShowPage, herr]

/-- A `GamesMenu` source that reports max_pages = 2 yet answers only page
5: exhibits that the games checked path ignores the reported bound. -/
def gamesRawSource : Source Nat :=
  { getPage := fun k => if k = 5 then .ok 99 else .error .indexError,
    maxPages := some 2, pages := [1, 2], selectOptions := none }

def sampleGamesWrapMenu : GamesMenu Nat :=
  { source := gamesRawSource, currentPage := 0, selectView := none, author := none }

/-- Claim C1 witness: the three-page duplicate-free source [10, 20, 30]:
both `BaseMenu`s wrap page 3 to `current_page = 0` and page -1 to
`current_page = 2`; the games menu asked for page 5 over a source with
reported max_pages = 2 lands on the raw page 5 (no wrap), and asked for
page 7 hits `IndexError` and stays unchanged. -/
theorem C1_wrap_witness :
    ((destinyShowCheckedPage (destinyInit (listSource ([10, 20, 30] : List Nat) true) 0)
        3).toOption.map (fun r => r.1.currentPage)) = some 0 ∧
    ((destinyShowCheckedPage (destinyInit (listSource ([10, 20, 30] : List Nat) true) 0)
        (-1)).toOption.map (fun r => r.1.currentPage)) = some 2 ∧
    ((hockeyShowCheckedPage (hockeyInit (listSource ([10, 20, 30] : List Nat) true) 0)
        3).toOption.map (fun r => r.1.currentPage)) = some 0 ∧
    ((hockeyShowCheckedPage (hockeyInit (listSource ([10, 20, 30] : List Nat) true) 0)
        (-1)).toOption.map (fun r => r.1.currentPage)) = some 2 ∧
    (gamesShowCheckedPage sampleGamesWrapMenu 5).1.currentPage = 5 ∧
    gamesShowCheckedPage sampleGamesWrapMenu 7 = (sampleGamesWrapMenu, []) := by
  have h5 := C1_wrap_amended ([10, 20, 30] : List Nat) true 0 (by decide)
    sampleGamesWrapMenu 5
  have h7 := C1_wrap_amended ([10, 20, 30] : List Nat) true 0 (by decide)
    sampleGamesWrapMenu 7
  exact ⟨h5.1, (h5.2.1 (by decide)).trans (by decide), h5.2.2.1,
    h5.2.2.2.1.trans (by decide), h5.2.2.2.2.1 99 rfl, h7.2.2.2.2.2 rfl⟩

/-- Claim C1 counterexample: the destiny menu over the duplicate page
list [7, 7] (known max_pages = 2 > 0): `show_checked_page(-1)` resolves
to page 1 but stores `pages.index(page) = 0`, not `M - 1 = 1`. -/
theorem C1_wrap_counterexample :
    ((destinyShowCheckedPage (destinyInit (listSource ([7, 7] : List Nat) true) 0)
        (-1)).toOption.map (fun r => r.1.currentPage)) = some 0 ∧
    ¬ ((destinyShowCheckedPage (destinyInit (listSource ([7, 7] : List Nat) true) 0)
        (-1)).toOption.map (fun r => r.1.currentPage)) = some (2 - 1) := by
  decide

/-- Claim C9 (confirmed): destiny `show_page(n)` stores
`pages.index(page)` — the index of the first occurrence of the fetched
page — as `current_page`: it equals `n` whenever the page list is
duplicate-free, and whenever the page fetched at `n` already occurs at an
earlier index `j < n`, the stored value is at most `j`, hence not `n`. -/
theorem C9_indexof_first_occurrence {α : Type} [DecidableEq α] (pages : List α)
    (hasSel : Bool) (start : Int) (n : Nat) (hn : n < pages.length) :
    ((destinyShowPage (destinyInit (listSource pages hasSel) start) (n : Int)).toOption.map
        (fun r => r.1.currentPage)) =
      some ((pages.indexOf (pages.get ⟨n, hn⟩) : Nat) : Int) ∧
    (pages.Nodup →
      ((destinyShowPage (destinyInit (listSource pages hasSel) start) (n : Int)).toOption.map
          (fun r => r.1.currentPage)) = some ((n : Nat) : Int)) ∧
    (∀ j (hj : j < pages.length), j < n → pages.get ⟨j, hj⟩ = pages.get ⟨n, hn⟩ →
      pages.indexOf (pages.get ⟨n, hn⟩) ≤ j ∧
      ¬ ((destinyShowPage (destinyInit (listSource pages hasSel) start)
            (n : Int)).toOption.map (fun r => r.1.currentPage)) = some ((n : Nat) : Int)) := by
  obtain ⟨m1, hshow, hcp⟩ :=
    destinyShowPage_listSource pages hasSel (destinyInit (listSource pages hasSel) start)
      (destinyInit_source _ _) n hn
  have hmap : ((destinyShowPage (destinyInit (listSource pages hasSel) start)
      (n : Int)).toOption.map (fun r => r.1.currentPage)) =
      some ((pages.indexOf (pages.get ⟨n, hn⟩) : Nat) : Int) := by
    rw [hshow]
    simp [Except.toOption, hcp]
  refine ⟨hmap, ?_, ?_⟩
  · intro hnd
    have hidx : pages.indexOf (pages.get ⟨n, hn⟩) = n := by
      simpa using List.indexOf_getElem hnd n hn
    rw [hmap, hidx]
  · intro j hj hjn heq
    have hle : pages.indexOf (pages.get ⟨n, hn⟩) ≤ j :=
      indexOf_le_of_get_eq pages j hj _ heq
    refine ⟨hle, ?_⟩
    rw [hmap]
    intro hcontra
    have := Option.some.inj hcontra
    omega

/-- Claim C9 witness: the duplicate page list [7, 7]: `show_page(1)`
stores `current_page = 0` (first occurrence), not 1. -/
theorem C9_indexof_first_occurrence_witness :
    ((destinyShowPage (destinyInit (listSource ([7, 7] : List Nat) true) 0)
        1).toOption.map (fun r => r.1.currentPage)) = some 0 ∧
    ([7, 7] : List Nat).indexOf (([7, 7] : List Nat).get ⟨1, by decide⟩) ≤ 0 ∧
    ¬ ((destinyShowPage (destinyInit (listSource ([7, 7] : List Nat) true) 0)
        1).toOption.map (fun r => r.1.currentPage)) = some 1 := by
  have h := C9_indexof_first_occurrence ([7, 7] : List Nat) true 0 1 (by decide)
  have h3 := h.2.2 0 (by decide) (by decide) (by decide)
  exact ⟨h.1.trans (by decide), h3.1, h3.2⟩

end TrustyMenus
